import Mathlib

/-!
# Verification of the OSLToy renderer-services adapter

Shallow embedding of `src/osltoy/osltoyrenderer.cpp` (class `OSLToyRenderer`):
the camera configuration, the transform-resolution service (built-in spaces
camera/screen/NDC/raster plus the named-transform catalog), the attribute
dispatch table with its camera getters, the mouse scope, the reserved
`options/blahblah` constant, the userdata fallback for `s`/`t`, and the
shader-globals template built by the constructor.

Modelling conventions:
* interned strings (`ustring`/`ustringhash`) become the finite inductive
  `RName` (with an `other` constructor for arbitrary user names; interning is
  injective, so equality of names is equality of `RName` values);
* `float`/`double` arithmetic is modelled exactly over `ℝ` (the claims under
  study are tolerance-based or structural, not rounding-dependent);
* `Imath::Matrix44` becomes `Matrix (Fin 4) (Fin 4) ℝ` with the row-vector
  convention `p * M` used by Imath (`Matrix.vecMul`);
* the `void* val` output buffer becomes a slot-indexed store `ℕ → Val`
  (every write in the source writes whole elements of the requested type, so
  slots, not bytes, are the faithful granularity); functions with a
  `bool` return and an out-parameter return the pair (flag, new buffer).
-/

namespace OSLToy

/-- Interned names: every string the renderer compares against
(`rs_strdecls.h` hashes and the `OSL::Hashes` built-in space names), plus
`other` for arbitrary user-chosen names and `emptyName` for the empty
`ustringhash` (`object.empty()`). -/
inductive RName where
  | osl_version
  | camera_resolution
  | camera_projection
  | camera_pixelaspect
  | camera_screen_window
  | camera_fov
  | camera_clip
  | camera_clip_near
  | camera_clip_far
  | camera_shutter
  | camera_shutter_open
  | camera_shutter_close
  | s
  | t
  | mouse
  | options
  | blahblah
  | perspective
  | camera
  | screen
  | NDC
  | raster
  | emptyName
  | other (txt : String)
  deriving DecidableEq, Repr

/-- `TypeDesc` model: the base types and array types the renderer tests for
(`TypeFloat`, `TypeInt`, `TypeString`, `TypeFloatArray2`, `TypeFloatArray4`,
`TypeIntArray2`). Equality is exact, including array arity. -/
inductive TD where
  | tFloat
  | tInt
  | tString
  | tFloatArr (n : ℕ)
  | tIntArr (n : ℕ)
  deriving DecidableEq, Repr

/-- Size of a type in slots (elements). All writes in the source move whole
elements, so the slot count plays the role of `TypeDesc::size()`. -/
def TD.size : TD → ℕ
  | .tFloat => 1
  | .tInt => 1
  | .tString => 1
  | .tFloatArr n => n
  | .tIntArr n => n

/-- One slot of an output buffer: a float, an int, an interned string, or
untouched memory. -/
inductive Val where
  | vf (x : ℝ)
  | vi (n : ℤ)
  | vs (nm : RName)
  | undef

/-- Output buffers passed as `void* val`. -/
def Buffer := ℕ → Val

/-- Write the list `xs` into `buf` starting at slot `off` (models the
sequences of element stores and `memset` calls in the source). -/
def writeSeq (buf : Buffer) (off : ℕ) (xs : List Val) : Buffer :=
  fun i => if off ≤ i ∧ i < off + xs.length then xs.getD (i - off) (buf i) else buf i

/-- 4×4 float matrices (`Imath::Matrix44`), row-vector convention. -/
abbrev M4 := Matrix (Fin 4) (Fin 4) ℝ

/-- 3-vectors (`Imath::Vec3`). -/
abbrev V3 := ℝ × ℝ × ℝ

noncomputable section

/-- `ShaderGlobals` fields the renderer touches. `shader2common` and
`object2common` are the identity transforms the constructor points at. -/
structure SG where
  u : ℝ
  v : ℝ
  dudx : ℝ
  dudy : ℝ
  dvdx : ℝ
  dvdy : ℝ
  dPdx : V3
  dPdy : V3
  dPdz : V3
  dPdu : V3
  dPdv : V3
  N : V3
  Ng : V3
  surfacearea : ℝ
  raytype : ℤ
  shader2common : M4
  object2common : M4

/-- The all-zero `ShaderGlobals` produced by
`memset((char*)&sg, 0, sizeof(ShaderGlobals))`. -/
def SG.zeroed : SG where
  u := 0
  v := 0
  dudx := 0
  dudy := 0
  dvdx := 0
  dvdy := 0
  dPdx := (0, 0, 0)
  dPdy := (0, 0, 0)
  dPdz := (0, 0, 0)
  dPdu := (0, 0, 0)
  dPdv := (0, 0, 0)
  N := (0, 0, 0)
  Ng := (0, 0, 0)
  surfacearea := 0
  raytype := 0
  shader2common := 0
  object2common := 0

/-- Renderer state: the `OSLToyRenderer` data members used by the embedded
methods. -/
structure RState where
  world_to_camera : M4
  projection : RName
  fov : ℝ
  pixelaspect : ℝ
  hither : ℝ
  yon : ℝ
  shutter0 : ℝ
  shutter1 : ℝ
  sw0 : ℝ
  sw1 : ℝ
  sw2 : ℝ
  sw3 : ℝ
  xres : ℤ
  yres : ℤ
  mouse_x : ℤ
  mouse_y : ℤ
  named_xforms : RName → Option M4
  sg_template : SG

/-- `OSLToyRenderer::camera_params`: replaces the camera state wholesale.
`m_pixelaspect` is hard-coded to 1, the shutter to `[0,1]`, and the screen
window to `[-aspect, -1, aspect, 1]` with
`aspect = xres/yres * pixelaspect`. Nothing else is touched. -/
def cameraParams (st : RState) (world_to_camera : M4) (projection : RName)
    (hfov hither yon : ℝ) (xres yres : ℤ) : RState :=
  let pixelaspect : ℝ := 1
  let frame_aspect : ℝ := (xres : ℝ) / (yres : ℝ) * pixelaspect
  { st with
    world_to_camera := world_to_camera
    projection := projection
    fov := hfov
    pixelaspect := pixelaspect
    hither := hither
    yon := yon
    shutter0 := 0
    shutter1 := 1
    sw0 := -frame_aspect
    sw1 := -1
    sw2 := frame_aspect
    sw3 := 1
    xres := xres
    yres := yres }

/-- Template construction from the constructor body (lines 84–120): zeroed
globals, identity shader/object spaces, `raytype = 0`, unit surface area,
image-plane differentials from the CURRENT `m_xres`/`m_yres`, and both
normals along the view axis. (`dPdz` is assigned `(0,0,1)` and then
reassigned `(0,0,0)`; the final value is what the model keeps.) -/
def buildTemplate (xres yres : ℤ) : SG :=
  { SG.zeroed with
    shader2common := 1
    object2common := 1
    raytype := 0
    surfacearea := 1
    dudx := 1 / (xres : ℝ)
    dvdy := 1 / (yres : ℝ)
    dPdx := (1, 0, 0)
    dPdy := (0, 1, 0)
    dPdu := ((xres : ℝ), 0, 0)
    dPdv := (0, (yres : ℝ), 0)
    dPdz := (0, 0, 0)
    N := (0, 0, 1)
    Ng := (0, 0, 1) }

/-- `OSLToyRenderer::OSLToyRenderer()`: calls `camera_params` with the
identity world-to-camera, perspective projection, fov 90°, clip `[0.1,1000]`
and resolution 256×256, then builds the shader-globals template from the
resolution just stored. `st0` supplies the (irrelevant) pre-construction
member values. -/
def construct (st0 : RState) : RState :=
  let st1 := cameraParams st0 1 RName.perspective 90 0.1 1000 256 256
  { st1 with sg_template := buildTemplate st1.xres st1.yres }

/-- Projection matrix for the perspective branch of `get_inverse_matrix`
(lines 240–244): entries listed row-major exactly as in the
`Matrix44(...)` constructor call, parameterized by `1/tan(fov/2)` (fov in
degrees) and depth range `yon - hither`. -/
def perspCameraToScreen (fov hither yon : ℝ) : M4 :=
  let tanhalffov : ℝ := Real.tan (0.5 * fov * Real.pi / 180)
  let depthrange : ℝ := yon - hither
  !![1 / tanhalffov, 0, 0, 0;
     0, 1 / tanhalffov, 0, 0;
     0, 0, yon / depthrange, 1;
     0, 0, -yon * hither / depthrange, 0]

/-- Projection matrix for the orthographic branch of `get_inverse_matrix`
(lines 247–249): the linear depth-normalizing matrix. -/
def orthoCameraToScreen (hither yon : ℝ) : M4 :=
  let depthrange : ℝ := yon - hither
  !![1, 0, 0, 0;
     0, 1, 0, 0;
     0, 0, 1 / depthrange, 0;
     0, 0, -hither / depthrange, 1]

/-- Screen-to-NDC remap (lines 253–258): affine map of the fixed screen
rectangle `[-1,1]×[-1,1]` onto the unit square. -/
def screenToNdc : M4 :=
  let screenleft : ℝ := -1
  let screenwidth : ℝ := 2
  let screenbottom : ℝ := -1
  let screenheight : ℝ := 2
  !![1 / screenwidth, 0, 0, 0;
     0, 1 / screenheight, 0, 0;
     0, 0, 1, 0;
     -screenleft / screenwidth, -screenbottom / screenheight, 0, 1]

/-- NDC-to-raster scale (lines 261–262). -/
def ndcToRaster (xres yres : ℤ) : M4 :=
  !![(xres : ℝ), 0, 0, 0;
     0, (yres : ℝ), 0, 0;
     0, 0, 1, 0;
     0, 0, 0, 1]

open Classical in
/-- `Imath::Matrix44::invert()` with `singExc = false`: the numeric inverse
for a nonsingular matrix, the identity when the matrix is singular. -/
def imathInvert (M : M4) : M4 :=
  if M.det ≠ 0 then M⁻¹ else 1

/-- `OSLToyRenderer::get_matrix(sg, result, ustringhash from, ...)`
(lines 185–196 and 212–225, identical bodies): look the name up in
`m_named_xforms`; on a miss return false and leave `result` untouched. -/
def get_matrix_name (st : RState) (result : M4) (fromName : RName) : Bool × M4 :=
  match st.named_xforms fromName with
  | some M => (true, M)
  | none => (false, result)

/-- `OSLToyRenderer::get_inverse_matrix(sg, result, ustringhash to, time)`
(lines 229–279). Built-in spaces are answered from the camera configuration
by the truncated composition chain; any other name is looked up in
`m_named_xforms` and numerically inverted; a miss returns false with
`result` untouched. -/
def get_inverse_matrix (st : RState) (result : M4) (toSpace : RName) : Bool × M4 :=
  if toSpace = RName.camera ∨ toSpace = RName.screen ∨ toSpace = RName.NDC ∨ toSpace = RName.raster then
    let M := st.world_to_camera
    let M :=
      if toSpace = RName.screen ∨ toSpace = RName.NDC ∨ toSpace = RName.raster then
        let M :=
          if st.projection = RName.perspective then
            M * perspCameraToScreen st.fov st.hither st.yon
          else
            M * orthoCameraToScreen st.hither st.yon
        if toSpace = RName.NDC ∨ toSpace = RName.raster then
          let M := M * screenToNdc
          if toSpace = RName.raster then M * ndcToRaster st.xres st.yres else M
        else M
      else M
    (true, M)
  else
    match st.named_xforms toSpace with
    | some M => (true, imathInvert M)
    | none => (false, result)

/-- `OSLToyRenderer::name_transform` (lines 283–288): publish a fresh copy
of `xform` under `name`, overwriting any previous entry of that name. -/
def name_transform (st : RState) (name : RName) (xform : M4) : RState :=
  { st with
    named_xforms := fun n => if n = name then some xform else st.named_xforms n }

/-- Signature shared by the attribute getter member functions
(`bool (OSLToyRenderer::*)(ShaderGlobals*, bool, ustringhash, TypeDesc,
ustringhash, void*)`); `ShaderGlobals*` is modelled by an `SG` value and
`void* val` by a `Buffer`. -/
def AttrGetter :=
  RState → SG → Bool → RName → TD → RName → Buffer → Bool × Buffer

/-- The `OSL_VERSION` integer baked in at compile time; its exact value is
irrelevant to every property proved here. -/
def oslVersionNumber : ℤ := 11400

/-- `get_osl_version` (lines 374–384). -/
def get_osl_version : AttrGetter := fun _st _sg _derivs _object ty _name buf =>
  if ty = TD.tInt then
    (true, writeSeq buf 0 [Val.vi oslVersionNumber])
  else (false, buf)

/-- `get_camera_resolution` (lines 387–398): requires exactly `int[2]`;
writes `(xres, yres)`; note the source never touches the derivative blocks
here, even when `derivs` is true. -/
def get_camera_resolution : AttrGetter := fun st _sg _derivs _object ty _name buf =>
  if ty = TD.tIntArr 2 then
    (true, writeSeq buf 0 [Val.vi st.xres, Val.vi st.yres])
  else (false, buf)

/-- `get_camera_projection` (lines 401–411): requires exactly `string`;
writes the projection tag; no derivative handling in the source. -/
def get_camera_projection : AttrGetter := fun st _sg _derivs _object ty _name buf =>
  if ty = TD.tString then
    (true, writeSeq buf 0 [Val.vs st.projection])
  else (false, buf)

/-- Zero elements written by `memset((char*)val + type.size(), 0,
2*type.size())` for a float-based type. -/
def derivZeros (ty : TD) : List Val :=
  List.replicate (2 * ty.size) (Val.vf 0)

/-- `get_camera_fov` (lines 414–427). -/
def get_camera_fov : AttrGetter := fun st _sg derivs _object ty _name buf =>
  if ty = TD.tFloat then
    let buf := writeSeq buf 0 [Val.vf st.fov]
    let buf := if derivs then writeSeq buf ty.size (derivZeros ty) else buf
    (true, buf)
  else (false, buf)

/-- `get_camera_pixelaspect` (lines 430–442). -/
def get_camera_pixelaspect : AttrGetter := fun st _sg derivs _object ty _name buf =>
  if ty = TD.tFloat then
    let buf := writeSeq buf 0 [Val.vf st.pixelaspect]
    let buf := if derivs then writeSeq buf ty.size (derivZeros ty) else buf
    (true, buf)
  else (false, buf)

/-- `get_camera_clip` (lines 445–458): requires exactly `float[2]`. -/
def get_camera_clip : AttrGetter := fun st _sg derivs _object ty _name buf =>
  if ty = TD.tFloatArr 2 then
    let buf := writeSeq buf 0 [Val.vf st.hither, Val.vf st.yon]
    let buf := if derivs then writeSeq buf ty.size (derivZeros ty) else buf
    (true, buf)
  else (false, buf)

/-- `get_camera_clip_near` (lines 461–473). -/
def get_camera_clip_near : AttrGetter := fun st _sg derivs _object ty _name buf =>
  if ty = TD.tFloat then
    let buf := writeSeq buf 0 [Val.vf st.hither]
    let buf := if derivs then writeSeq buf ty.size (derivZeros ty) else buf
    (true, buf)
  else (false, buf)

/-- `get_camera_clip_far` (lines 476–488). -/
def get_camera_clip_far : AttrGetter := fun st _sg derivs _object ty _name buf =>
  if ty = TD.tFloat then
    let buf := writeSeq buf 0 [Val.vf st.yon]
    let buf := if derivs then writeSeq buf ty.size (derivZeros ty) else buf
    (true, buf)
  else (false, buf)

/-- `get_camera_shutter` (lines 492–505): requires exactly `float[2]`. -/
def get_camera_shutter : AttrGetter := fun st _sg derivs _object ty _name buf =>
  if ty = TD.tFloatArr 2 then
    let buf := writeSeq buf 0 [Val.vf st.shutter0, Val.vf st.shutter1]
    let buf := if derivs then writeSeq buf ty.size (derivZeros ty) else buf
    (true, buf)
  else (false, buf)

/-- `get_camera_shutter_open` (lines 508–520). -/
def get_camera_shutter_open : AttrGetter := fun st _sg derivs _object ty _name buf =>
  if ty = TD.tFloat then
    let buf := writeSeq buf 0 [Val.vf st.shutter0]
    let buf := if derivs then writeSeq buf ty.size (derivZeros ty) else buf
    (true, buf)
  else (false, buf)

/-- `get_camera_shutter_close` (lines 523–535). -/
def get_camera_shutter_close : AttrGetter := fun st _sg derivs _object ty _name buf =>
  if ty = TD.tFloat then
    let buf := writeSeq buf 0 [Val.vf st.shutter1]
    let buf := if derivs then writeSeq buf ty.size (derivZeros ty) else buf
    (true, buf)
  else (false, buf)

/-- `get_camera_screen_window` (lines 538–554): requires exactly
`float[4]`. -/
def get_camera_screen_window : AttrGetter := fun st _sg derivs _object ty _name buf =>
  if ty = TD.tFloatArr 4 then
    let buf := writeSeq buf 0 [Val.vf st.sw0, Val.vf st.sw1, Val.vf st.sw2, Val.vf st.sw3]
    let buf := if derivs then writeSeq buf ty.size (derivZeros ty) else buf
    (true, buf)
  else (false, buf)

/-- The `m_attr_getters` dispatch table as filled by the constructor
(lines 62–82): the twelve registered names, nothing else. -/
def attrGetters : RName → Option AttrGetter
  | RName.osl_version => some get_osl_version
  | RName.camera_resolution => some get_camera_resolution
  | RName.camera_projection => some get_camera_projection
  | RName.camera_pixelaspect => some get_camera_pixelaspect
  | RName.camera_screen_window => some get_camera_screen_window
  | RName.camera_fov => some get_camera_fov
  | RName.camera_clip => some get_camera_clip
  | RName.camera_clip_near => some get_camera_clip_near
  | RName.camera_clip_far => some get_camera_clip_far
  | RName.camera_shutter => some get_camera_shutter
  | RName.camera_shutter_open => some get_camera_shutter_open
  | RName.camera_shutter_close => some get_camera_shutter_close
  | _ => none

/-- `OSLToyRenderer::get_userdata` (lines 344–371): binds exactly the two
float attributes `s` and `t` to the shade state's `u`/`v`, with the stored
analytic partials as derivatives when requested. -/
def get_userdata (derivs : Bool) (name : RName) (ty : TD) (sg : SG)
    (buf : Buffer) : Bool × Buffer :=
  if name = RName.s ∧ ty = TD.tFloat then
    let buf := writeSeq buf 0 [Val.vf sg.u]
    let buf := if derivs then writeSeq buf 1 [Val.vf sg.dudx, Val.vf sg.dudy] else buf
    (true, buf)
  else if name = RName.t ∧ ty = TD.tFloat then
    let buf := writeSeq buf 0 [Val.vf sg.v]
    let buf := if derivs then writeSeq buf 1 [Val.vf sg.dvdx, Val.vf sg.dvdy] else buf
    (true, buf)
  else (false, buf)

/-- Steps 2–5 of `get_array_attribute` (lines 303–329): everything after
the dispatch-table lookup — the mouse scope, the reserved
`options/blahblah` constant, and the userdata fallback. -/
def afterDispatch (st : RState) (sg : SG) (derivs : Bool) (object : RName)
    (ty : TD) (name : RName) (index : ℤ) (buf : Buffer) : Bool × Buffer :=
  if object = RName.mouse ∧ name = RName.s ∧ ty = TD.tFloat ∧ 0 ≤ st.mouse_x then
    (true, writeSeq buf 0 [Val.vf (((st.mouse_x : ℝ) + 0.5) / (st.xres : ℝ))])
  else if object = RName.mouse ∧ name = RName.t ∧ ty = TD.tFloat ∧ 0 ≤ st.mouse_y then
    (true, writeSeq buf 0 [Val.vf (((st.mouse_y : ℝ) + 0.5) / (st.yres : ℝ))])
  else if object = RName.options ∧ name = RName.blahblah ∧ ty = TD.tFloat then
    (true, writeSeq buf 0 [Val.vf 3.14159])
  else if object = RName.emptyName ∧ index = -1 then
    get_userdata derivs name ty sg buf
  else (false, buf)

/-- `OSLToyRenderer::get_array_attribute` (lines 292–330): a dispatch-table
hit returns the getter's result directly; otherwise resolution proceeds to
the remaining steps. -/
def get_array_attribute (st : RState) (sg : SG) (derivs : Bool)
    (object : RName) (ty : TD) (name : RName) (index : ℤ)
    (buf : Buffer) : Bool × Buffer :=
  match attrGetters name with
  | some getter => getter st sg derivs object ty name buf
  | none => afterDispatch st sg derivs object ty name index buf

/-- `OSLToyRenderer::get_attribute` (lines 334–340): delegates with
`index = -1`. -/
def get_attribute (st : RState) (sg : SG) (derivs : Bool) (object : RName)
    (ty : TD) (name : RName) (buf : Buffer) : Bool × Buffer :=
  get_array_attribute st sg derivs object ty name (-1) buf

/-- A concrete pre-construction state (all members zero / empty / the -1
mouse sentinel) used to instantiate closed theorems. -/
def base : RState where
  world_to_camera := 1
  projection := RName.emptyName
  fov := 0
  pixelaspect := 0
  hither := 0
  yon := 0
  shutter0 := 0
  shutter1 := 0
  sw0 := 0
  sw1 := 0
  sw2 := 0
  sw3 := 0
  xres := 0
  yres := 0
  mouse_x := -1
  mouse_y := -1
  named_xforms := fun _ => none
  sg_template := SG.zeroed

/-- The state after the configure call of the testable scenario:
identity world-to-camera, perspective projection, fov 90°,
`hither = 0.1`, `yon = 1000`, resolution 256×256. -/
def cfg : RState :=
  cameraParams base 1 RName.perspective 90 0.1 1000 256 256

/-- The camera-to-screen matrix selected by the stored projection tag
(the two branches of lines 239–251). -/
def cameraToScreen (st : RState) : M4 :=
  if st.projection = RName.perspective then
    perspCameraToScreen st.fov st.hither st.yon
  else
    orthoCameraToScreen st.hither st.yon

/-- A fully unwritten buffer, used to instantiate closed theorems. -/
def bufU : Buffer := fun _ => Val.undef

end

/-- C2: for every built-in space name, `get_inverse_matrix` returns true
and produces the fixed composition chain truncated at the requested stage:
`world_to_camera` alone for "camera"; composed with the projection-selected
camera-to-screen matrix for "screen"; further composed with the
screen-to-unit-square remap for "NDC"; further scaled by `(xres, yres)` for
"raster". -/
theorem builtin_inverse_chain (st : RState) (r : M4) :
    get_inverse_matrix st r RName.camera = (true, st.world_to_camera) ∧
    get_inverse_matrix st r RName.screen
      = (true, st.world_to_camera * cameraToScreen st) ∧
    get_inverse_matrix st r RName.NDC
      = (true, st.world_to_camera * cameraToScreen st * screenToNdc) ∧
    get_inverse_matrix st r RName.raster
      = (true, st.world_to_camera * cameraToScreen st * screenToNdc
                 * ndcToRaster st.xres st.yres) := by
  unfold get_inverse_matrix cameraToScreen
  refine ⟨by simp, ?_, ?_, ?_⟩ <;>
    by_cases h : st.projection = RName.perspective <;>
    simp [h]

/-- C3: registering `M` under a (non-built-in) name makes forward
resolution return exactly `M`, makes inverse resolution return the numeric
inverse of `M` (two-sided inverse when `M` is nonsingular), and
re-registering the same name fully replaces the entry. -/
theorem named_transform_resolution (st : RState) (r : M4) (n : RName)
    (M M2 : M4) (hdet : M.det ≠ 0) (h1 : n ≠ RName.camera)
    (h2 : n ≠ RName.screen) (h3 : n ≠ RName.NDC) (h4 : n ≠ RName.raster) :
    get_matrix_name (name_transform st n M) r n = (true, M) ∧
    get_inverse_matrix (name_transform st n M) r n = (true, M⁻¹) ∧
    M * M⁻¹ = 1 ∧ M⁻¹ * M = 1 ∧
    (name_transform (name_transform st n M) n M2).named_xforms
      = (name_transform st n M2).named_xforms := by
  have hM : (name_transform st n M).named_xforms n = some M := by
    simp [name_transform]
  have hU : IsUnit M.det := isUnit_iff_ne_zero.mpr hdet
  refine ⟨?_, ?_, Matrix.mul_nonsing_inv M hU, Matrix.nonsing_inv_mul M hU, ?_⟩
  · simp [get_matrix_name, hM]
  · simp [get_inverse_matrix, h1, h2, h3, h4, hM, imathInvert, hdet]
  · funext n'
    by_cases h : n' = n <;> simp [name_transform, h]

/-- Witness for `named_transform_resolution` at the nonsingular matrix
`2 • 1` and the user name "myxform". -/
theorem named_transform_resolution_witness :
    (((2 : ℝ) • (1 : M4)).det ≠ 0 ∧ RName.other "myxform" ≠ RName.camera ∧
      RName.other "myxform" ≠ RName.screen ∧
      RName.other "myxform" ≠ RName.NDC ∧
      RName.other "myxform" ≠ RName.raster) ∧
    get_matrix_name (name_transform base (RName.other "myxform") ((2 : ℝ) • 1))
        1 (RName.other "myxform") = (true, (2 : ℝ) • 1) ∧
    get_inverse_matrix (name_transform base (RName.other "myxform") ((2 : ℝ) • 1))
        1 (RName.other "myxform") = (true, ((2 : ℝ) • (1 : M4))⁻¹) ∧
    ((2 : ℝ) • (1 : M4)) * ((2 : ℝ) • (1 : M4))⁻¹ = 1 ∧
    ((2 : ℝ) • (1 : M4))⁻¹ * ((2 : ℝ) • (1 : M4)) = 1 ∧
    (name_transform (name_transform base (RName.other "myxform") ((2 : ℝ) • 1))
        (RName.other "myxform") 1).named_xforms
      = (name_transform base (RName.other "myxform") 1).named_xforms := by
  have hdet : ((2 : ℝ) • (1 : M4)).det ≠ 0 := by
    simp [Matrix.det_smul]
  exact ⟨⟨hdet, by decide, by decide, by decide, by decide⟩,
    named_transform_resolution base 1 (RName.other "myxform") ((2 : ℝ) • 1) 1
      hdet (by decide) (by decide) (by decide) (by decide)⟩

/-- C4 (amended): the shader-globals template is built at construction from
the constructor-time resolution, and `camera_params` leaves it untouched. -/
theorem template_fixed_at_construction (st0 st : RState) (w2c : M4)
    (proj : RName) (hfov hither yon : ℝ) (xres yres : ℤ) :
    (cameraParams st w2c proj hfov hither yon xres yres).sg_template
        = st.sg_template ∧
    (construct st0).sg_template.dudx = 1 / ((construct st0).xres : ℝ) ∧
    (construct st0).sg_template.dvdy = 1 / ((construct st0).yres : ℝ) ∧
    (construct st0).sg_template.dPdu = (((construct st0).xres : ℝ), 0, 0) ∧
    (construct st0).sg_template.dPdv = (0, ((construct st0).yres : ℝ), 0) :=
  ⟨rfl, rfl, rfl, rfl, rfl⟩

/-- Counterexample to C4 as stated: after reconfiguring the constructed
renderer to 512×512, the template still carries `dudx = 1/256`, not
`1/512` — `camera_params` does not rebuild it. -/
theorem template_stale_after_reconfigure :
    (cameraParams (construct base) 1 RName.perspective 90 0.1 1000 512
        512).sg_template.dudx ≠ 1 / (512 : ℝ) := by
  have h : (cameraParams (construct base) 1 RName.perspective 90 0.1 1000 512
      512).sg_template.dudx = 1 / ((256 : ℤ) : ℝ) := rfl
  rw [h]
  norm_num

/-- C7: every `camera_params` call replaces the camera state with values
determined by its arguments alone: screen window
`[-aspect, -1, aspect, 1]` with `aspect = xres/yres * pixelaspect`,
`pixelaspect = 1` regardless of inputs, shutter reset to `[0,1]`, and every
remaining camera field taken from the arguments. -/
theorem camera_params_replaces_state (st : RState) (w2c : M4) (proj : RName)
    (hfov hither yon : ℝ) (xres yres : ℤ) :
    (cameraParams st w2c proj hfov hither yon xres yres).sw0
        = -((xres : ℝ) / (yres : ℝ) * 1) ∧
    (cameraParams st w2c proj hfov hither yon xres yres).sw1 = -1 ∧
    (cameraParams st w2c proj hfov hither yon xres yres).sw2
        = (xres : ℝ) / (yres : ℝ) * 1 ∧
    (cameraParams st w2c proj hfov hither yon xres yres).sw3 = 1 ∧
    (cameraParams st w2c proj hfov hither yon xres yres).pixelaspect = 1 ∧
    (cameraParams st w2c proj hfov hither yon xres yres).shutter0 = 0 ∧
    (cameraParams st w2c proj hfov hither yon xres yres).shutter1 = 1 ∧
    (cameraParams st w2c proj hfov hither yon xres yres).world_to_camera = w2c ∧
    (cameraParams st w2c proj hfov hither yon xres yres).projection = proj ∧
    (cameraParams st w2c proj hfov hither yon xres yres).fov = hfov ∧
    (cameraParams st w2c proj hfov hither yon xres yres).hither = hither ∧
    (cameraParams st w2c proj hfov hither yon xres yres).yon = yon ∧
    (cameraParams st w2c proj hfov hither yon xres yres).xres = xres ∧
    (cameraParams st w2c proj hfov hither yon xres yres).yres = yres :=
  ⟨rfl, rfl, rfl, rfl, rfl, rfl, rfl, rfl, rfl, rfl, rfl, rfl, rfl, rfl⟩

/-- C9: forward `get_matrix` by name consults only the named-transform
catalog: any unregistered name (the built-in space names included — they
are not special-cased here) yields false with the result matrix untouched. -/
theorem forward_matrix_unregistered (st : RState) (r : M4) (n : RName)
    (h : st.named_xforms n = none) :
    get_matrix_name st r n = (false, r) := by
  simp [get_matrix_name, h]

/-- Witness for `forward_matrix_unregistered`: the configured renderer has
no catalog entry for the built-in name "raster", so forward resolution
fails and leaves the result matrix alone. -/
theorem forward_matrix_unregistered_witness :
    cfg.named_xforms RName.raster = none ∧
    get_matrix_name cfg 1 RName.raster = (false, 1) :=
  ⟨rfl, forward_matrix_unregistered cfg 1 RName.raster rfl⟩

/-- Helper: a declining `get_userdata` call is the identity on the buffer. -/
theorem userdata_decline_id (derivs : Bool) (name : RName) (ty : TD) (sg : SG)
    (buf : Buffer) (h : (get_userdata derivs name ty sg buf).1 = false) :
    get_userdata derivs name ty sg buf = (false, buf) := by
  unfold get_userdata at h ⊢
  split_ifs at h ⊢
  all_goals simp_all

/-- Helper: declining steps 2–5 are the identity on the buffer. -/
theorem afterDispatch_decline_id (st : RState) (sg : SG) (derivs : Bool)
    (object : RName) (ty : TD) (name : RName) (index : ℤ) (buf : Buffer)
    (h : (afterDispatch st sg derivs object ty name index buf).1 = false) :
    afterDispatch st sg derivs object ty name index buf = (false, buf) := by
  unfold afterDispatch at h ⊢
  split_ifs at h ⊢
  all_goals simp_all [userdata_decline_id]

/-- Helper: a declining dispatch-table getter is the identity on the
buffer (each of the twelve entries checks its type before any write). -/
theorem getter_decline_id (st : RState) (sg : SG) (derivs : Bool)
    (object : RName) (ty : TD) (name : RName) (buf : Buffer) (g : AttrGetter)
    (hg : attrGetters name = some g)
    (h : (g st sg derivs object ty name buf).1 = false) :
    g st sg derivs object ty name buf = (false, buf) := by
  cases name <;> simp only [attrGetters, Option.some.injEq, reduceCtorEq] at hg <;>
    first
      | exact absurd hg (by simp)
      | (subst hg
         simp only [get_osl_version, get_camera_resolution,
           get_camera_projection, get_camera_pixelaspect,
           get_camera_screen_window, get_camera_fov, get_camera_clip,
           get_camera_clip_near, get_camera_clip_far, get_camera_shutter,
           get_camera_shutter_open, get_camera_shutter_close] at h ⊢
         split_ifs at h ⊢
         all_goals simp_all)

/-- Helper: a declining `get_array_attribute` call is the identity on the
buffer. -/
theorem gaa_decline_id (st : RState) (sg : SG) (derivs : Bool)
    (object : RName) (ty : TD) (name : RName) (index : ℤ) (buf : Buffer)
    (h : (get_array_attribute st sg derivs object ty name index buf).1 = false) :
    get_array_attribute st sg derivs object ty name index buf = (false, buf) := by
  cases hm : attrGetters name with
  | some g =>
      have he : get_array_attribute st sg derivs object ty name index buf
          = g st sg derivs object ty name buf := by
        unfold get_array_attribute
        rw [hm]
      rw [he] at h ⊢
      exact getter_decline_id st sg derivs object ty name buf g hm h
  | none =>
      have he : get_array_attribute st sg derivs object ty name index buf
          = afterDispatch st sg derivs object ty name index buf := by
        unfold get_array_attribute
        rw [hm]
      rw [he] at h ⊢
      exact afterDispatch_decline_id st sg derivs object ty name index buf h

/-- C10: whenever `get_array_attribute`, `get_attribute` or `get_userdata`
returns false, the output buffer is left completely unwritten — every path
writes only after its name, scope and type guards have all passed. -/
theorem failed_resolution_writes_nothing (st : RState) (sg : SG)
    (derivs : Bool) (object : RName) (ty : TD) (name : RName) (index : ℤ)
    (buf : Buffer) :
    ((get_array_attribute st sg derivs object ty name index buf).1 = false →
      (get_array_attribute st sg derivs object ty name index buf).2 = buf) ∧
    ((get_attribute st sg derivs object ty name buf).1 = false →
      (get_attribute st sg derivs object ty name buf).2 = buf) ∧
    ((get_userdata derivs name ty sg buf).1 = false →
      (get_userdata derivs name ty sg buf).2 = buf) := by
  refine ⟨fun h => ?_, fun h => ?_, fun h => ?_⟩
  · rw [gaa_decline_id st sg derivs object ty name index buf h]
  · rw [show get_attribute st sg derivs object ty name buf
        = get_array_attribute st sg derivs object ty name (-1) buf from rfl] at h ⊢
    rw [gaa_decline_id st sg derivs object ty name (-1) buf h]
  · rw [userdata_decline_id derivs name ty sg buf h]

/-- Witness for `failed_resolution_writes_nothing` at a concrete failing
request (unknown name in the "options" scope). -/
theorem failed_resolution_writes_nothing_witness :
    (get_array_attribute base SG.zeroed false RName.options TD.tFloat
        (RName.other "nope") 0 bufU).1 = false ∧
    (get_array_attribute base SG.zeroed false RName.options TD.tFloat
        (RName.other "nope") 0 bufU).2 = bufU :=
  ⟨rfl, (failed_resolution_writes_nothing base SG.zeroed false RName.options
      TD.tFloat (RName.other "nope") 0 bufU).1 rfl⟩

/-- C5: when the requested name hits a dispatch-table entry and the entry
declines (type mismatch), the call resolves to exactly what the subsequent
steps (mouse scope, reserved constant, userdata fallback) produce. In the
source the entry's result is returned directly, but no table name is
handled by any later step, so both sides agree (both decline and leave the
buffer untouched). -/
theorem dispatch_decline_falls_through (st : RState) (sg : SG)
    (derivs : Bool) (object : RName) (ty : TD) (name : RName) (index : ℤ)
    (buf : Buffer) (g : AttrGetter) (hg : attrGetters name = some g)
    (h : (g st sg derivs object ty name buf).1 = false) :
    get_array_attribute st sg derivs object ty name index buf
      = afterDispatch st sg derivs object ty name index buf := by
  have h1 : get_array_attribute st sg derivs object ty name index buf
      = (false, buf) := by
    unfold get_array_attribute
    rw [hg]
    exact getter_decline_id st sg derivs object ty name buf g hg h
  have h2 : afterDispatch st sg derivs object ty name index buf
      = (false, buf) := by
    cases name <;> simp only [attrGetters, reduceCtorEq] at hg <;>
      simp [afterDispatch, get_userdata]
  rw [h1, h2]

/-- Witness for `dispatch_decline_falls_through`: requesting `camera:fov`
with type int makes the table entry decline; the full call equals the
post-dispatch resolution. -/
theorem dispatch_decline_falls_through_witness :
    attrGetters RName.camera_fov = some get_camera_fov ∧
    (get_camera_fov base SG.zeroed false RName.emptyName TD.tInt
        RName.camera_fov bufU).1 = false ∧
    get_array_attribute base SG.zeroed false RName.emptyName TD.tInt
        RName.camera_fov (-1) bufU
      = afterDispatch base SG.zeroed false RName.emptyName TD.tInt
          RName.camera_fov (-1) bufU :=
  ⟨rfl, rfl, dispatch_decline_falls_through base SG.zeroed false
      RName.emptyName TD.tInt RName.camera_fov (-1) bufU get_camera_fov rfl rfl⟩

/-- C8: the "mouse"-scope float attributes `s` / `t` succeed only when the
tracked pointer coordinate is non-negative (so a value — in `[0,1]` when
the pointer is inside the frame — is produced only then), and fail outright
at the -1 sentinel; symmetric in `s`/`x` and `t`/`y`. -/
theorem mouse_attribute_validity (st : RState) (sg : SG) (buf : Buffer) :
    (((get_attribute st sg false RName.mouse TD.tFloat RName.s buf).1 = true →
        0 ≤ st.mouse_x) ∧
      (st.mouse_x = -1 →
        (get_attribute st sg false RName.mouse TD.tFloat RName.s buf).1
          = false) ∧
      (0 ≤ st.mouse_x → st.mouse_x < st.xres →
        (get_attribute st sg false RName.mouse TD.tFloat RName.s buf).1
            = true ∧
        (get_attribute st sg false RName.mouse TD.tFloat RName.s buf).2 0
            = Val.vf (((st.mouse_x : ℝ) + 0.5) / (st.xres : ℝ)) ∧
        0 ≤ ((st.mouse_x : ℝ) + 0.5) / (st.xres : ℝ) ∧
        ((st.mouse_x : ℝ) + 0.5) / (st.xres : ℝ) ≤ 1)) ∧
    (((get_attribute st sg false RName.mouse TD.tFloat RName.t buf).1 = true →
        0 ≤ st.mouse_y) ∧
      (st.mouse_y = -1 →
        (get_attribute st sg false RName.mouse TD.tFloat RName.t buf).1
          = false) ∧
      (0 ≤ st.mouse_y → st.mouse_y < st.yres →
        (get_attribute st sg false RName.mouse TD.tFloat RName.t buf).1
            = true ∧
        (get_attribute st sg false RName.mouse TD.tFloat RName.t buf).2 0
            = Val.vf (((st.mouse_y : ℝ) + 0.5) / (st.yres : ℝ)) ∧
        0 ≤ ((st.mouse_y : ℝ) + 0.5) / (st.yres : ℝ) ∧
        ((st.mouse_y : ℝ) + 0.5) / (st.yres : ℝ) ≤ 1)) := by
  have hval : ∀ mx xr : ℤ, 0 ≤ mx → mx < xr →
      0 ≤ ((mx : ℝ) + 0.5) / (xr : ℝ) ∧ ((mx : ℝ) + 0.5) / (xr : ℝ) ≤ 1 := by
    intro mx xr h0 hlt
    have hx0 : (0 : ℝ) ≤ (mx : ℝ) := by exact_mod_cast h0
    have hxr : (mx : ℝ) + 1 ≤ (xr : ℝ) := by exact_mod_cast hlt
    have hxrpos : (0 : ℝ) < (xr : ℝ) := by linarith
    constructor
    · positivity
    · rw [div_le_one hxrpos]
      linarith
  constructor
  · by_cases hx : 0 ≤ st.mouse_x
    · have he : get_attribute st sg false RName.mouse TD.tFloat RName.s buf
          = (true, writeSeq buf 0
              [Val.vf (((st.mouse_x : ℝ) + 0.5) / (st.xres : ℝ))]) := by
        simp [get_attribute, get_array_attribute, attrGetters, afterDispatch, hx]
      refine ⟨fun _ => hx, fun hm => absurd hx (by omega), fun _ hlt => ?_⟩
      refine ⟨by rw [he], by rw [he]; rfl, hval st.mouse_x st.xres hx hlt⟩
    · have he : get_attribute st sg false RName.mouse TD.tFloat RName.s buf
          = (false, buf) := by
        simp [get_attribute, get_array_attribute, attrGetters, afterDispatch,
          hx, get_userdata]
      exact ⟨fun htr => absurd (he ▸ htr) (by simp),
        fun _ => by rw [he], fun h0 _ => absurd h0 hx⟩
  · by_cases hy : 0 ≤ st.mouse_y
    · have he : get_attribute st sg false RName.mouse TD.tFloat RName.t buf
          = (true, writeSeq buf 0
              [Val.vf (((st.mouse_y : ℝ) + 0.5) / (st.yres : ℝ))]) := by
        simp [get_attribute, get_array_attribute, attrGetters, afterDispatch, hy]
      refine ⟨fun _ => hy, fun hm => absurd hy (by omega), fun _ hlt => ?_⟩
      refine ⟨by rw [he], by rw [he]; rfl, hval st.mouse_y st.yres hy hlt⟩
    · have he : get_attribute st sg false RName.mouse TD.tFloat RName.t buf
          = (false, buf) := by
        simp [get_attribute, get_array_attribute, attrGetters, afterDispatch,
          hy, get_userdata]
      exact ⟨fun htr => absurd (he ▸ htr) (by simp),
        fun _ => by rw [he], fun h0 _ => absurd h0 hy⟩

/-- The configured renderer with the pointer at pixel (10, 20): used to
witness the mouse-scope attribute theorem away from the sentinel. -/
noncomputable def mouseSt : RState :=
  { cfg with mouse_x := 10, mouse_y := 20 }

/-- Witness for `mouse_attribute_validity`: at the sentinel (-1) the call
fails; with the pointer at x = 10 inside a 256-pixel-wide frame it
succeeds. -/
theorem mouse_attribute_validity_witness :
    (cfg.mouse_x = -1 ∧
      (get_attribute cfg SG.zeroed false RName.mouse TD.tFloat RName.s
          bufU).1 = false) ∧
    (0 ≤ mouseSt.mouse_x ∧ mouseSt.mouse_x < mouseSt.xres ∧
      (get_attribute mouseSt SG.zeroed false RName.mouse TD.tFloat RName.s
          bufU).1 = true) :=
  ⟨⟨rfl, (mouse_attribute_validity cfg SG.zeroed bufU).1.2.1 rfl⟩,
    ⟨by decide, by decide,
      ((mouse_attribute_validity mouseSt SG.zeroed bufU).1.2.2 (by decide)
        (by decide)).1⟩⟩

/-- Counterexample to C6 as stated: with derivatives requested,
`camera:resolution` and `camera:projection` return true but leave the
slots where the claim requires zeroed derivative blocks unwritten. -/
theorem resolution_projection_derivs_unwritten_cex :
    (get_attribute cfg SG.zeroed true RName.emptyName (TD.tIntArr 2)
        RName.camera_resolution bufU).1 = true ∧
    (get_attribute cfg SG.zeroed true RName.emptyName (TD.tIntArr 2)
        RName.camera_resolution bufU).2 2 = Val.undef ∧
    Val.undef ≠ Val.vi 0 ∧
    (get_attribute cfg SG.zeroed true RName.emptyName TD.tString
        RName.camera_projection bufU).1 = true ∧
    (get_attribute cfg SG.zeroed true RName.emptyName TD.tString
        RName.camera_projection bufU).2 1 = Val.undef ∧
    Val.undef ≠ Val.vs RName.perspective :=
  ⟨rfl, rfl, fun h => Val.noConfusion h, rfl, rfl, fun h => Val.noConfusion h⟩

/-- C6 (amended): with derivatives requested and the exact type supplied,
every float-valued camera getter writes three contiguous same-typed
blocks — the value, then a d/dx block and a d/dy block both zero — while
`camera:resolution` and `camera:projection` write only the value block and
leave every later slot of the buffer untouched (no derivative blocks). -/
theorem camera_getter_derivative_blocks (st : RState) (sg : SG) (obj : RName)
    (buf : Buffer) :
    (get_attribute st sg true obj (TD.tFloat) RName.camera_fov buf).1 = true ∧
    (get_attribute st sg true obj (TD.tFloat) RName.camera_fov buf).2 0 = Val.vf st.fov ∧
    (get_attribute st sg true obj (TD.tFloat) RName.camera_fov buf).2 1 = Val.vf 0 ∧
    (get_attribute st sg true obj (TD.tFloat) RName.camera_fov buf).2 2 = Val.vf 0 ∧
    (get_attribute st sg true obj (TD.tFloat) RName.camera_pixelaspect buf).1 = true ∧
    (get_attribute st sg true obj (TD.tFloat) RName.camera_pixelaspect buf).2 0 = Val.vf st.pixelaspect ∧
    (get_attribute st sg true obj (TD.tFloat) RName.camera_pixelaspect buf).2 1 = Val.vf 0 ∧
    (get_attribute st sg true obj (TD.tFloat) RName.camera_pixelaspect buf).2 2 = Val.vf 0 ∧
    (get_attribute st sg true obj (TD.tFloat) RName.camera_clip_near buf).1 = true ∧
    (get_attribute st sg true obj (TD.tFloat) RName.camera_clip_near buf).2 0 = Val.vf st.hither ∧
    (get_attribute st sg true obj (TD.tFloat) RName.camera_clip_near buf).2 1 = Val.vf 0 ∧
    (get_attribute st sg true obj (TD.tFloat) RName.camera_clip_near buf).2 2 = Val.vf 0 ∧
    (get_attribute st sg true obj (TD.tFloat) RName.camera_clip_far buf).1 = true ∧
    (get_attribute st sg true obj (TD.tFloat) RName.camera_clip_far buf).2 0 = Val.vf st.yon ∧
    (get_attribute st sg true obj (TD.tFloat) RName.camera_clip_far buf).2 1 = Val.vf 0 ∧
    (get_attribute st sg true obj (TD.tFloat) RName.camera_clip_far buf).2 2 = Val.vf 0 ∧
    (get_attribute st sg true obj (TD.tFloat) RName.camera_shutter_open buf).1 = true ∧
    (get_attribute st sg true obj (TD.tFloat) RName.camera_shutter_open buf).2 0 = Val.vf st.shutter0 ∧
    (get_attribute st sg true obj (TD.tFloat) RName.camera_shutter_open buf).2 1 = Val.vf 0 ∧
    (get_attribute st sg true obj (TD.tFloat) RName.camera_shutter_open buf).2 2 = Val.vf 0 ∧
    (get_attribute st sg true obj (TD.tFloat) RName.camera_shutter_close buf).1 = true ∧
    (get_attribute st sg true obj (TD.tFloat) RName.camera_shutter_close buf).2 0 = Val.vf st.shutter1 ∧
    (get_attribute st sg true obj (TD.tFloat) RName.camera_shutter_close buf).2 1 = Val.vf 0 ∧
    (get_attribute st sg true obj (TD.tFloat) RName.camera_shutter_close buf).2 2 = Val.vf 0 ∧
    (get_attribute st sg true obj (TD.tFloatArr 2) RName.camera_clip buf).1 = true ∧
    (get_attribute st sg true obj (TD.tFloatArr 2) RName.camera_clip buf).2 0 = Val.vf st.hither ∧
    (get_attribute st sg true obj (TD.tFloatArr 2) RName.camera_clip buf).2 1 = Val.vf st.yon ∧
    (get_attribute st sg true obj (TD.tFloatArr 2) RName.camera_clip buf).2 2 = Val.vf 0 ∧
    (get_attribute st sg true obj (TD.tFloatArr 2) RName.camera_clip buf).2 3 = Val.vf 0 ∧
    (get_attribute st sg true obj (TD.tFloatArr 2) RName.camera_clip buf).2 4 = Val.vf 0 ∧
    (get_attribute st sg true obj (TD.tFloatArr 2) RName.camera_clip buf).2 5 = Val.vf 0 ∧
    (get_attribute st sg true obj (TD.tFloatArr 2) RName.camera_shutter buf).1 = true ∧
    (get_attribute st sg true obj (TD.tFloatArr 2) RName.camera_shutter buf).2 0 = Val.vf st.shutter0 ∧
    (get_attribute st sg true obj (TD.tFloatArr 2) RName.camera_shutter buf).2 1 = Val.vf st.shutter1 ∧
    (get_attribute st sg true obj (TD.tFloatArr 2) RName.camera_shutter buf).2 2 = Val.vf 0 ∧
    (get_attribute st sg true obj (TD.tFloatArr 2) RName.camera_shutter buf).2 3 = Val.vf 0 ∧
    (get_attribute st sg true obj (TD.tFloatArr 2) RName.camera_shutter buf).2 4 = Val.vf 0 ∧
    (get_attribute st sg true obj (TD.tFloatArr 2) RName.camera_shutter buf).2 5 = Val.vf 0 ∧
    (get_attribute st sg true obj (TD.tFloatArr 4) RName.camera_screen_window buf).1 = true ∧
    (get_attribute st sg true obj (TD.tFloatArr 4) RName.camera_screen_window buf).2 0 = Val.vf st.sw0 ∧
    (get_attribute st sg true obj (TD.tFloatArr 4) RName.camera_screen_window buf).2 1 = Val.vf st.sw1 ∧
    (get_attribute st sg true obj (TD.tFloatArr 4) RName.camera_screen_window buf).2 2 = Val.vf st.sw2 ∧
    (get_attribute st sg true obj (TD.tFloatArr 4) RName.camera_screen_window buf).2 3 = Val.vf st.sw3 ∧
    (get_attribute st sg true obj (TD.tFloatArr 4) RName.camera_screen_window buf).2 4 = Val.vf 0 ∧
    (get_attribute st sg true obj (TD.tFloatArr 4) RName.camera_screen_window buf).2 5 = Val.vf 0 ∧
    (get_attribute st sg true obj (TD.tFloatArr 4) RName.camera_screen_window buf).2 6 = Val.vf 0 ∧
    (get_attribute st sg true obj (TD.tFloatArr 4) RName.camera_screen_window buf).2 7 = Val.vf 0 ∧
    (get_attribute st sg true obj (TD.tFloatArr 4) RName.camera_screen_window buf).2 8 = Val.vf 0 ∧
    (get_attribute st sg true obj (TD.tFloatArr 4) RName.camera_screen_window buf).2 9 = Val.vf 0 ∧
    (get_attribute st sg true obj (TD.tFloatArr 4) RName.camera_screen_window buf).2 10 = Val.vf 0 ∧
    (get_attribute st sg true obj (TD.tFloatArr 4) RName.camera_screen_window buf).2 11 = Val.vf 0 ∧
    (get_attribute st sg true obj (TD.tIntArr 2) RName.camera_resolution buf).1 = true ∧
    (get_attribute st sg true obj (TD.tIntArr 2) RName.camera_resolution buf).2 0 = Val.vi st.xres ∧
    (get_attribute st sg true obj (TD.tIntArr 2) RName.camera_resolution buf).2 1 = Val.vi st.yres ∧
    (∀ k : ℕ, (get_attribute st sg true obj (TD.tIntArr 2) RName.camera_resolution buf).2 (2 + k) = buf (2 + k)) ∧
    (get_attribute st sg true obj (TD.tString) RName.camera_projection buf).1 = true ∧
    (get_attribute st sg true obj (TD.tString) RName.camera_projection buf).2 0 = Val.vs st.projection ∧
    (∀ k : ℕ, (get_attribute st sg true obj (TD.tString) RName.camera_projection buf).2 (1 + k) = buf (1 + k)) := by
  have hres : ∀ k : ℕ,
      (get_attribute st sg true obj (TD.tIntArr 2) RName.camera_resolution
          buf).2 (2 + k) = buf (2 + k) := by
    intro k
    have hn : ¬ (0 ≤ 2 + k ∧ 2 + k < 0 + 2) := by omega
    simp [get_attribute, get_array_attribute, attrGetters,
      get_camera_resolution, writeSeq, hn]
  have hproj : ∀ k : ℕ,
      (get_attribute st sg true obj TD.tString RName.camera_projection
          buf).2 (1 + k) = buf (1 + k) := by
    intro k
    have hn : ¬ (0 ≤ 1 + k ∧ 1 + k < 0 + 1) := by omega
    simp [get_attribute, get_array_attribute, attrGetters,
      get_camera_projection, writeSeq, hn]
  exact ⟨rfl, rfl, rfl, rfl, rfl, rfl, rfl, rfl, rfl, rfl, rfl, rfl, rfl, rfl, rfl, rfl, rfl, rfl, rfl, rfl, rfl, rfl, rfl, rfl, rfl, rfl, rfl, rfl, rfl, rfl, rfl, rfl, rfl, rfl, rfl, rfl, rfl, rfl, rfl, rfl, rfl, rfl, rfl, rfl, rfl, rfl, rfl, rfl, rfl, rfl, rfl, rfl, rfl, rfl, hres, rfl, rfl, hproj⟩

/-- Counterexample to C1 as stated: in the configured scenario (identity
world-to-camera, perspective, fov 90°, hither 0.1, yon 1000, 256×256),
forward `get_matrix` by the built-in name "raster" FAILS — built-in spaces
are served only by `get_inverse_matrix`. -/
theorem raster_forward_resolution_fails :
    (get_matrix_name cfg 1 RName.raster).1 = false := rfl

/-- C1 (amended): in the configured scenario the world-to-raster matrix is
produced (with success) by `get_inverse_matrix "raster"`, and it maps the
camera-space point on the view axis at unit distance — `(0,0,1,1)` in
homogeneous row-vector convention — to pixel (128,128) exactly, hence
within half-pixel tolerance. -/
theorem raster_inverse_maps_axis_point :
    ∃ M : M4, get_inverse_matrix cfg 1 RName.raster = (true, M) ∧
      Matrix.vecMul ![0, 0, 1, 1] M 0 = 128 ∧
      Matrix.vecMul ![0, 0, 1, 1] M 1 = 128 ∧
      Matrix.vecMul ![0, 0, 1, 1] M 3 = 1 ∧
      |Matrix.vecMul ![0, 0, 1, 1] M 0 / Matrix.vecMul ![0, 0, 1, 1] M 3 - 128|
          ≤ 1 / 2 ∧
      |Matrix.vecMul ![0, 0, 1, 1] M 1 / Matrix.vecMul ![0, 0, 1, 1] M 3 - 128|
          ≤ 1 / 2 := by
  have hM : get_inverse_matrix cfg 1 RName.raster
      = (true, 1 * perspCameraToScreen 90 0.1 1000 * screenToNdc
          * ndcToRaster 256 256) := rfl
  have ht : Real.tan (0.5 * 90 * Real.pi / 180) = 1 := by
    have h4 : (0.5 * 90 * Real.pi / 180 : ℝ) = Real.pi / 4 := by ring
    rw [h4, Real.tan_pi_div_four]
  have hcomp : ∀ j : Fin 4,
      Matrix.vecMul ![(0 : ℝ), 0, 1, 1]
          (1 * perspCameraToScreen 90 0.1 1000 * screenToNdc
            * ndcToRaster 256 256) j
        = Matrix.vecMul (Matrix.vecMul (Matrix.vecMul ![(0 : ℝ), 0, 1, 1]
            (perspCameraToScreen 90 0.1 1000)) screenToNdc)
            (ndcToRaster 256 256) j := by
    intro j
    rw [Matrix.one_mul, ← Matrix.vecMul_vecMul, ← Matrix.vecMul_vecMul]
  have h0 : Matrix.vecMul ![(0 : ℝ), 0, 1, 1]
      (1 * perspCameraToScreen 90 0.1 1000 * screenToNdc
        * ndcToRaster 256 256) 0 = 128 := by
    rw [hcomp]
    simp [perspCameraToScreen, screenToNdc, ndcToRaster, Matrix.vecMul,
      Matrix.dotProduct, Fin.sum_univ_four, ht, Matrix.vecHead, Matrix.vecTail]
    norm_num
  have h1 : Matrix.vecMul ![(0 : ℝ), 0, 1, 1]
      (1 * perspCameraToScreen 90 0.1 1000 * screenToNdc
        * ndcToRaster 256 256) 1 = 128 := by
    rw [hcomp]
    simp [perspCameraToScreen, screenToNdc, ndcToRaster, Matrix.vecMul,
      Matrix.dotProduct, Fin.sum_univ_four, ht, Matrix.vecHead, Matrix.vecTail]
    norm_num
  have h3 : Matrix.vecMul ![(0 : ℝ), 0, 1, 1]
      (1 * perspCameraToScreen 90 0.1 1000 * screenToNdc
        * ndcToRaster 256 256) 3 = 1 := by
    rw [hcomp]
    simp [perspCameraToScreen, screenToNdc, ndcToRaster, Matrix.vecMul,
      Matrix.dotProduct, Fin.sum_univ_four, ht, Matrix.vecHead, Matrix.vecTail]
  exact ⟨_, hM, h0, h1, h3, by rw [h0, h3]; norm_num, by rw [h1, h3]; norm_num⟩

end OSLToy
